import Mathlib

/-!
Shallow embedding of `src/app/app.component.ts` (Angular + d3 drag-and-drop
demo).  Pixel coordinates and animation progress are modelled as rationals,
JavaScript `undefined` as `Option.none`, and the component's mutable fields
as a record that the event handlers transform.
-/

/-- A drag item (interface `Item`): caption, background color, position, and
the optional `visible` flag (`none` = the property is absent / undefined). -/
structure Item where
  text : String
  color : String
  left : ℚ
  top : ℚ
  visible : Option Bool
deriving DecidableEq, Repr

/-- Styles of the drag ghost (interface `DragItemStyle`). -/
structure DragItemStyle where
  left : ℚ
  top : ℚ
  width : ℚ
  height : ℚ
  lineHeight : ℚ
  borderRadius : ℚ
deriving DecidableEq, Repr

/-- The relevant data of a browser `DragEvent`: the page coordinates of the
mouse and whether `event.dataTransfer.setDragImage` is defined in this
browser (the Chrome branch of `dragStart`). -/
structure DragEventM where
  pageX : ℚ
  pageY : ℚ
  hasSetDragImage : Bool
deriving DecidableEq, Repr

/-- The mutable fields of `AppComponent`.  `dragging` and `dragItemStyle`
start out unassigned (undefined), hence `Option`.  `dropped` is a list of
`Option Item` because `drop` pushes `this.dragging`, which may be
undefined. -/
structure AppComponent where
  draggable : List Item
  dropped : List (Option Item)
  dragging : Option Item
  dragItemStyle : Option DragItemStyle
  mouseOffsetX : ℚ
  mouseOffsetY : ℚ
deriving DecidableEq, Repr

/-- The component as constructed: field initializers
`draggable = []`, `dropped = []`, `mouseOffset = { x: 0, y: 0 }`;
`dragging` and `dragItemStyle` undefined. -/
def initialComponent : AppComponent :=
  { draggable := []
    dropped := []
    dragging := none
    dragItemStyle := none
    mouseOffsetX := 0
    mouseOffsetY := 0 }

/-- `ngOnInit`: assigns the three draggable items (and touches nothing
else). -/
def ngOnInit (s : AppComponent) : AppComponent :=
  { s with draggable :=
    [ { text := "Item 1", color := "red", left := 100, top := 100, visible := none }
    , { text := "Item 2", color := "green", left := 200, top := 100, visible := none }
    , { text := "Item 3", color := "yellow", left := 300, top := 100, visible := none } ] }

/-- JavaScript `Array.prototype.indexOf(x)` with strict equality, applied to
`this.draggable.indexOf(this.dragging)`: `-1` when `dragging` is undefined
or not among the draggable items, otherwise the index of its first
occurrence. -/
def jsIndexOf (l : List Item) (d : Option Item) : Int :=
  match d with
  | none => -1
  | some it => if it ∈ l then (l.indexOf it : Int) else -1

/-- JavaScript `Array.prototype.splice(start, 1)`: a negative `start` counts
from the end (clamped at 0), a too-large `start` is clamped at the length;
one element at the resulting index is removed (none if the index is the
length). -/
def jsSpliceRemove1 (l : List Item) (start : Int) : List Item :=
  let len : Int := l.length
  let actual : Int := if start < 0 then max (len + start) 0 else min start len
  let a : Nat := actual.toNat
  l.take a ++ l.drop (a + 1)

/-- Sets `visible = false` on the (first) occurrence of `item` in a list;
models the JavaScript mutation `item.visible = false` of an object
referenced from the list. -/
def hideItem : List Item → Item → List Item
  | [], _ => []
  | x :: xs, item =>
      if x = item then { x with visible := some false } :: xs
      else x :: hideItem xs item

/-- `dragStart(event, item)`.  Returns the new component state and the
JavaScript return value (`some false` on the early exit, `none` =
undefined otherwise).  `event.dataTransfer.setData` / `.effectAllowed` /
`.setDragImage` are browser-side effects without component state.  In the
`setDragImage` branch the hiding of `item` happens in a `setTimeout`
callback one tick later, i.e. after this synchronous transition; in the
other branch it happens immediately (and, since `this.dragging` was just
assigned the same object reference, is visible through `dragging` too). -/
def dragStart (s : AppComponent) (event : DragEventM) (item : Item) :
    AppComponent × Option Bool :=
  if s.dragging.isSome then (s, some false)
  else
    let s1 :=
      if event.hasSetDragImage then
        { s with dragging := some item }
      else
        { s with
          dragging := some { item with visible := some false }
          draggable := hideItem s.draggable item }
    ({ s1 with
        dragItemStyle := some
          { left := item.left
            top := item.top
            width := 80
            height := 80
            lineHeight := 80
            borderRadius := 50 }
        mouseOffsetX := event.pageX - item.left
        mouseOffsetY := event.pageY - item.top }, none)

/-- `d3.interpolate(a, b)` applied to numbers (d3-interpolate's number
interpolator): `t ↦ a + (b - a) * t`. -/
def d3_interpolate (a b t : ℚ) : ℚ :=
  a + (b - a) * t

/-- One animation step of the `dragEnd` tween.  The factory captured the
ghost style `style0` (`this.dragItemStyle`) and the dragged item `dragging0`
(`this.dragging`) when the transition started; the step at progress `t`
assigns the interpolated `left` and `top` to the current ghost style. -/
def dragEndStep (style0 : DragItemStyle) (dragging0 : Item) (t : ℚ)
    (style : DragItemStyle) : DragItemStyle :=
  { style with
      left := d3_interpolate style0.left dragging0.left t
      top := d3_interpolate style0.top dragging0.top t }

/-- The bounding client rect of the target `.dropped-item` element, as
measured by `getBoundingClientRect` in the `drop` tween factory. -/
structure DOMRectM where
  left : ℚ
  top : ℚ
  right : ℚ
  bottom : ℚ
deriving DecidableEq, Repr

/-- One animation step of the `drop` tween.  The factory captured the ghost
style `style0` and the target box `box`; the step at progress `t` assigns
all six interpolated style fields. -/
def dropStep (style0 : DragItemStyle) (box : DOMRectM) (t : ℚ)
    (style : DragItemStyle) : DragItemStyle :=
  { style with
      left := d3_interpolate style0.left box.left t
      top := d3_interpolate style0.top box.top t
      width := d3_interpolate style0.width (box.right - box.left) t
      height := d3_interpolate style0.height (box.bottom - box.top) t
      lineHeight := d3_interpolate style0.lineHeight 20 t
      borderRadius := d3_interpolate style0.borderRadius 0 t }

/-- A d3 transition as configured by the component: its duration in
milliseconds and its tween step function. -/
structure TransitionSpec where
  duration : Nat
  step : ℚ → DragItemStyle → DragItemStyle

/-- The transition set up by `dragEnd`: `.duration(500)` with the
`dragEnd` tween. -/
def dragEndTransition (style0 : DragItemStyle) (dragging0 : Item) :
    TransitionSpec :=
  { duration := 500, step := dragEndStep style0 dragging0 }

/-- The transition set up by `drop`: `.duration(1000)` with the `drop`
tween. -/
def dropTransition (style0 : DragItemStyle) (box : DOMRectM) :
    TransitionSpec :=
  { duration := 1000, step := dropStep style0 box }

/-- `dragOver(event)`: calls `event.preventDefault()` (the returned
Boolean) exactly when a drag of one of our items is in progress; the
component state is untouched. -/
def dragOver (s : AppComponent) : AppComponent × Bool :=
  if s.dragging.isSome then (s, true) else (s, false)

/-- The synchronous list mutation of `drop(event)`:
`index = draggable.indexOf(dragging)`, `draggable.splice(index, 1)`,
`dropped.push(dragging)`.  (The call also does `event.preventDefault()`
and sets up `dropTransition`.) -/
def drop (s : AppComponent) : AppComponent :=
  let index := jsIndexOf s.draggable s.dragging
  { s with
      draggable := jsSpliceRemove1 s.draggable index
      dropped := s.dropped ++ [s.dragging] }

/-- `moveDragElement(event)`: while a drag is in progress, positions the
ghost from the mouse position and the recorded mouse offset.  (If
`dragging` were assigned while `dragItemStyle` were still undefined the
JavaScript would throw; that state is unreachable through the handlers, and
the `Option.map` leaves it unchanged.) -/
def moveDragElement (s : AppComponent) (event : DragEventM) : AppComponent :=
  if s.dragging.isSome then
    { s with dragItemStyle := s.dragItemStyle.map fun st =>
        { st with
            left := event.pageX - s.mouseOffsetX
            top := event.pageY - s.mouseOffsetY } }
  else s

/-! Theorems settling the claims. -/

/-- C4: after `ngOnInit` on the freshly constructed component, the
draggable list holds exactly the three items `Item 1`/red, `Item 2`/green,
`Item 3`/yellow, all at top 100 and at lefts 100, 200, 300, and the
dropped list is empty. -/
theorem ngOnInit_initial_items :
    (ngOnInit initialComponent).draggable =
      [ { text := "Item 1", color := "red", left := 100, top := 100, visible := none }
      , { text := "Item 2", color := "green", left := 200, top := 100, visible := none }
      , { text := "Item 3", color := "yellow", left := 300, top := 100, visible := none } ] ∧
    (ngOnInit initialComponent).dropped = [] := by
  constructor <;> rfl

/-- C5: whenever `dragStart` accepts the event (no drag in progress), it
sets the ghost style to width 80, height 80, lineHeight 80,
borderRadius 50, with `left` and `top` taken from the dragged item. -/
theorem dragStart_ghost_style (s : AppComponent) (event : DragEventM)
    (item : Item) (h : s.dragging = none) :
    (dragStart s event item).1.dragItemStyle = some
      { left := item.left, top := item.top, width := 80, height := 80,
        lineHeight := 80, borderRadius := 50 } := by
  unfold dragStart
  rw [h]
  by_cases hb : event.hasSetDragImage <;> simp [hb]

theorem dragStart_ghost_style_witness :
    (ngOnInit initialComponent).dragging = none ∧
    (dragStart (ngOnInit initialComponent)
        { pageX := 150, pageY := 130, hasSetDragImage := true }
        { text := "Item 1", color := "red", left := 100, top := 100, visible := none }).1.dragItemStyle =
      some { left := 100, top := 100, width := 80, height := 80,
             lineHeight := 80, borderRadius := 50 } :=
  ⟨rfl, dragStart_ghost_style (ngOnInit initialComponent)
      { pageX := 150, pageY := 130, hasSetDragImage := true }
      { text := "Item 1", color := "red", left := 100, top := 100, visible := none } rfl⟩

/-- C6: the `dragEnd` transition always has duration 500 ms and the `drop`
transition always has duration 1000 ms, whatever the captured ghost style,
dragged item, or target box. -/
theorem transition_durations (style0 : DragItemStyle) (dragging0 : Item)
    (box : DOMRectM) :
    (dragEndTransition style0 dragging0).duration = 500 ∧
    (dropTransition style0 box).duration = 1000 :=
  ⟨rfl, rfl⟩

/-- C7: `dragOver` calls `preventDefault` exactly when a drag of one of the
component's items is in progress, and never changes the component state. -/
theorem dragOver_preventDefault_iff (s : AppComponent) :
    ((dragOver s).2 = true ↔ s.dragging.isSome) ∧ (dragOver s).1 = s := by
  unfold dragOver
  by_cases h : s.dragging.isSome <;> simp [h]

/-- C8: when a drag is already in progress, `dragStart` returns `false` and
leaves the whole component state (lists, ghost style, mouse offset, drag
reference, item visibility) unchanged. -/
theorem dragStart_inProgress_noop (s : AppComponent) (event : DragEventM)
    (item : Item) (d : Item) (h : s.dragging = some d) :
    dragStart s event item = (s, some false) := by
  unfold dragStart
  rw [h]
  rfl

theorem dragStart_inProgress_noop_witness :
    (let s : AppComponent :=
      { draggable := [], dropped := [], dragging :=
          some { text := "Item 1", color := "red", left := 100, top := 100, visible := none },
        dragItemStyle := none, mouseOffsetX := 0, mouseOffsetY := 0 };
      dragStart s { pageX := 5, pageY := 7, hasSetDragImage := false }
        { text := "Item 2", color := "green", left := 200, top := 100, visible := none } =
        (s, some false)) :=
  dragStart_inProgress_noop _ _ _
    { text := "Item 1", color := "red", left := 100, top := 100, visible := none } rfl

/-- C2 counterexample: at a concrete animation step of the drag-cancel
(`dragEnd`) tween — ghost captured at (150, 120), progress 1/2 — the step
leaves `width`, `height` and `borderRadius` exactly as they were: the
drag-cancel tween does not update the size or shape fields, contrary to
the claim. -/
theorem dragEnd_tween_no_size_shape_cex :
    (dragEndStep { left := 150, top := 120, width := 80, height := 80,
                   lineHeight := 80, borderRadius := 50 }
        { text := "Item 1", color := "red", left := 100, top := 100, visible := none }
        (1/2)
        { left := 150, top := 120, width := 80, height := 80,
          lineHeight := 80, borderRadius := 50 }).width = 80 ∧
    (dragEndStep { left := 150, top := 120, width := 80, height := 80,
                   lineHeight := 80, borderRadius := 50 }
        { text := "Item 1", color := "red", left := 100, top := 100, visible := none }
        (1/2)
        { left := 150, top := 120, width := 80, height := 80,
          lineHeight := 80, borderRadius := 50 }).height = 80 ∧
    (dragEndStep { left := 150, top := 120, width := 80, height := 80,
                   lineHeight := 80, borderRadius := 50 }
        { text := "Item 1", color := "red", left := 100, top := 100, visible := none }
        (1/2)
        { left := 150, top := 120, width := 80, height := 80,
          lineHeight := 80, borderRadius := 50 }).borderRadius = 50 :=
  ⟨rfl, rfl, rfl⟩

/-- C2 amended: every step of the `drop` tween updates all six ghost style
fields (`left`, `top`, `width`, `height`, `lineHeight`, `borderRadius`) to
their interpolated values, while every step of the drag-cancel (`dragEnd`)
tween updates only `left` and `top` and leaves `width`, `height`,
`lineHeight` and `borderRadius` unchanged. -/
theorem tween_updated_fields (style0 : DragItemStyle) (dragging0 : Item)
    (box : DOMRectM) (t : ℚ) (style : DragItemStyle) :
    dropStep style0 box t style =
      { left := d3_interpolate style0.left box.left t
        top := d3_interpolate style0.top box.top t
        width := d3_interpolate style0.width (box.right - box.left) t
        height := d3_interpolate style0.height (box.bottom - box.top) t
        lineHeight := d3_interpolate style0.lineHeight 20 t
        borderRadius := d3_interpolate style0.borderRadius 0 t } ∧
    dragEndStep style0 dragging0 t style =
      { style with
          left := d3_interpolate style0.left dragging0.left t
          top := d3_interpolate style0.top dragging0.top t } :=
  ⟨rfl, rfl⟩

/-- C3: the interpolator behind both tweens is linear,
`d3_interpolate a b t = a + (b - a) * t`; through the tween steps, progress
0 reproduces the captured ghost style and progress 1 reaches the end
keyframe — the dragged item's original position for drag-cancel, and the
target box geometry (with lineHeight 20 and borderRadius 0) for drop. -/
theorem tween_interpolation_linear (style0 : DragItemStyle)
    (dragging0 : Item) (box : DOMRectM) (style : DragItemStyle) :
    (∀ a b t : ℚ, d3_interpolate a b t = a + (b - a) * t) ∧
    (dragEndStep style0 dragging0 0 style).left = style0.left ∧
    (dragEndStep style0 dragging0 0 style).top = style0.top ∧
    (dragEndStep style0 dragging0 1 style).left = dragging0.left ∧
    (dragEndStep style0 dragging0 1 style).top = dragging0.top ∧
    (dropStep style0 box 0 style).left = style0.left ∧
    (dropStep style0 box 0 style).top = style0.top ∧
    (dropStep style0 box 0 style).width = style0.width ∧
    (dropStep style0 box 0 style).height = style0.height ∧
    (dropStep style0 box 0 style).lineHeight = style0.lineHeight ∧
    (dropStep style0 box 0 style).borderRadius = style0.borderRadius ∧
    (dropStep style0 box 1 style).left = box.left ∧
    (dropStep style0 box 1 style).top = box.top ∧
    (dropStep style0 box 1 style).width = box.right - box.left ∧
    (dropStep style0 box 1 style).height = box.bottom - box.top ∧
    (dropStep style0 box 1 style).lineHeight = 20 ∧
    (dropStep style0 box 1 style).borderRadius = 0 := by
  refine ⟨fun a b t => rfl, ?_, ?_, ?_, ?_, ?_, ?_, ?_, ?_, ?_, ?_, ?_, ?_, ?_, ?_, ?_, ?_⟩ <;>
    simp [dragEndStep, dropStep, d3_interpolate]

/-- C9: the mouse-offset round trip.  After an accepted `dragStart` at page
coordinates `(pageX, pageY)`, a `moveDragElement` at the same coordinates
puts the ghost exactly at the item's position (no jump), so the ghost style
is the item's `left`/`top` with the fixed 80/80/80/50 geometry; and in
general `moveDragElement` changes no ghost style field other than `left`
and `top`. -/
theorem mouseOffset_roundtrip (s : AppComponent) (event move : DragEventM)
    (item : Item) (h : s.dragging = none) (hx : move.pageX = event.pageX)
    (hy : move.pageY = event.pageY) :
    (moveDragElement (dragStart s event item).1 move).dragItemStyle = some
      { left := item.left, top := item.top, width := 80, height := 80,
        lineHeight := 80, borderRadius := 50 } ∧
    (∀ (s' : AppComponent) (e : DragEventM) (st : DragItemStyle),
      s'.dragItemStyle = some st →
      ∃ st2, (moveDragElement s' e).dragItemStyle = some st2 ∧
        st2.width = st.width ∧ st2.height = st.height ∧
        st2.lineHeight = st.lineHeight ∧ st2.borderRadius = st.borderRadius) := by
  constructor
  · unfold dragStart moveDragElement
    rw [h]
    by_cases hb : event.hasSetDragImage <;> simp [hb, hx, hy]
  · intro s' e st hst
    unfold moveDragElement
    by_cases hd : s'.dragging.isSome
    · exact ⟨{ st with left := e.pageX - s'.mouseOffsetX,
                       top := e.pageY - s'.mouseOffsetY },
        by simp [hd, hst], rfl, rfl, rfl, rfl⟩
    · exact ⟨st, by simp [hd, hst], rfl, rfl, rfl, rfl⟩

theorem mouseOffset_roundtrip_witness :
    (ngOnInit initialComponent).dragging = none ∧
    (moveDragElement
        (dragStart (ngOnInit initialComponent)
          { pageX := 163, pageY := 137, hasSetDragImage := false }
          { text := "Item 2", color := "green", left := 200, top := 100, visible := none }).1
        { pageX := 163, pageY := 137, hasSetDragImage := false }).dragItemStyle = some
      { left := 200, top := 100, width := 80, height := 80,
        lineHeight := 80, borderRadius := 50 } :=
  ⟨rfl,
    (mouseOffset_roundtrip (ngOnInit initialComponent)
      { pageX := 163, pageY := 137, hasSetDragImage := false }
      { pageX := 163, pageY := 137, hasSetDragImage := false }
      { text := "Item 2", color := "green", left := 200, top := 100, visible := none }
      rfl rfl rfl).1⟩

/-- `splice(n, 1)` at a valid non-negative index `n` removes the element
at `n`. -/
lemma jsSplice_ofNat (l : List Item) (n : Nat) (h : n < l.length) :
    jsSpliceRemove1 l (n : Int) = l.take n ++ l.drop (n + 1) := by
  have h1 : ¬ ((n : Int) < 0) := by omega
  have h2 : (n : Int) ⊓ (l.length : Int) = (n : Int) := by omega
  simp only [jsSpliceRemove1, if_neg h1, h2, Int.toNat_ofNat]

/-- Removing the element at `indexOf d` removes the first occurrence of
`d`: it equals `List.erase`. -/
lemma take_indexOf_drop_erase (l : List Item) (d : Item) (h : d ∈ l) :
    l.take (l.indexOf d) ++ l.drop (l.indexOf d + 1) = l.erase d := by
  induction l with
  | nil => cases h
  | cons x xs ih =>
    by_cases hx : x = d
    · subst hx
      simp [List.indexOf_cons_self]
    · have hmem : d ∈ xs := by
        cases h with
        | head => exact absurd rfl hx
        | tail _ h => exact h
      rw [List.indexOf_cons_ne xs hx, List.erase_cons_tail (by simpa using hx)]
      simpa [Nat.succ_eq_add_one, List.take_succ_cons, List.drop_succ_cons]
        using ih hmem

/-- `splice(indexOf d, 1)` at a present element removes its first
occurrence: it equals `List.erase`. -/
lemma jsSplice_indexOf_erase (l : List Item) (d : Item) (h : d ∈ l) :
    jsSpliceRemove1 l ((l.indexOf d : Int)) = l.erase d := by
  rw [jsSplice_ofNat l _ (List.indexOf_lt_length.mpr h)]
  exact take_indexOf_drop_erase l d h

/-- C1: when the dragged item is present in the draggable list, `drop`
removes exactly its (first) occurrence from `draggable` — the other items
keep their relative order — and appends it to the end of `dropped`; the
combined multiset of the two lists is preserved. -/
theorem drop_moves_dragged_item (s : AppComponent) (d : Item)
    (hd : s.dragging = some d) (hmem : d ∈ s.draggable) :
    (drop s).draggable = s.draggable.erase d ∧
    (drop s).dropped = s.dropped ++ [some d] ∧
    ((((drop s).draggable.map some : List (Option Item)) : Multiset (Option Item)) +
        ((drop s).dropped : Multiset (Option Item)) =
      ((s.draggable.map some : List (Option Item)) : Multiset (Option Item)) +
        (s.dropped : Multiset (Option Item))) := by
  have h1 : (drop s).draggable = s.draggable.erase d := by
    unfold drop
    simp only [jsIndexOf, hd, if_pos hmem]
    exact jsSplice_indexOf_erase s.draggable d hmem
  have h2 : (drop s).dropped = s.dropped ++ [some d] := by
    unfold drop
    rw [hd]
  refine ⟨h1, h2, ?_⟩
  rw [h1, h2]
  have hperm : (s.draggable.map some).Perm
      ((s.draggable.erase d).map some ++ [some d]) := by
    have hc : (s.draggable.map some).Perm
        (some d :: (s.draggable.erase d).map some) := by
      simpa using (List.perm_cons_erase hmem).map some
    exact hc.trans (List.perm_append_singleton (some d)
      ((s.draggable.erase d).map some)).symm
  have hkey : ((s.draggable.map some : List (Option Item)) : Multiset (Option Item)) =
      ((s.draggable.erase d).map some : List (Option Item)) +
        (([some d] : List (Option Item)) : Multiset (Option Item)) := by
    rw [Multiset.coe_add]
    exact Multiset.coe_eq_coe.mpr hperm
  rw [hkey, ← Multiset.coe_add]
  abel

theorem drop_moves_dragged_item_witness :
    (let item2 : Item :=
      { text := "Item 2", color := "green", left := 200, top := 100, visible := none };
     let s : AppComponent :=
      { draggable := (ngOnInit initialComponent).draggable, dropped := [],
        dragging := some item2, dragItemStyle := none,
        mouseOffsetX := 0, mouseOffsetY := 0 };
     (drop s).draggable = s.draggable.erase item2 ∧
     (drop s).dropped = [] ++ [some item2] ∧
     ((((drop s).draggable.map some : List (Option Item)) : Multiset (Option Item)) +
        ((drop s).dropped : Multiset (Option Item)) =
      ((s.draggable.map some : List (Option Item)) : Multiset (Option Item)) +
        (s.dropped : Multiset (Option Item)))) :=
  drop_moves_dragged_item _
    { text := "Item 2", color := "green", left := 200, top := 100, visible := none }
    rfl (by decide)

/-- `splice(-1, 1)` on a non-empty array removes the last element. -/
lemma jsSplice_neg_one (l : List Item) (h : l ≠ []) :
    jsSpliceRemove1 l (-1) = l.dropLast := by
  have hl : 0 < l.length := List.length_pos.mpr h
  have h1 : (-1 : Int) < 0 := by omega
  have h2 : ((l.length : Int) + -1) ⊔ 0 = (l.length : Int) - 1 := by omega
  have h3 : ((l.length : Int) - 1).toNat = l.length - 1 := by omega
  have h4 : l.length - 1 + 1 = l.length := by omega
  simp only [jsSpliceRemove1, if_pos h1, h2, h3, h4, List.drop_length,
    List.append_nil]
  exact (List.dropLast_eq_take l).symm

/-- C10: when the dragged reference is not an element of the draggable
list (for instance `dragging` is undefined) and the draggable list is
non-empty, `drop` still mutates both lists: `indexOf` yields `-1`,
`splice(-1, 1)` removes the last draggable item, and `dragging` (possibly
undefined) is appended to the dropped list. -/
theorem drop_dragging_missing (s : AppComponent)
    (h : ∀ d : Item, s.dragging = some d → d ∉ s.draggable)
    (hne : s.draggable ≠ []) :
    jsIndexOf s.draggable s.dragging = -1 ∧
    (drop s).draggable = s.draggable.dropLast ∧
    (drop s).dropped = s.dropped ++ [s.dragging] := by
  have hidx : jsIndexOf s.draggable s.dragging = -1 := by
    cases hd : s.dragging with
    | none => rfl
    | some d => simp [jsIndexOf, h d hd]
  refine ⟨hidx, ?_, rfl⟩
  show jsSpliceRemove1 s.draggable (jsIndexOf s.draggable s.dragging) =
    s.draggable.dropLast
  rw [hidx]
  exact jsSplice_neg_one s.draggable hne

theorem drop_dragging_missing_witness :
    (let s : AppComponent :=
      { draggable := (ngOnInit initialComponent).draggable, dropped := [],
        dragging := none, dragItemStyle := none,
        mouseOffsetX := 0, mouseOffsetY := 0 };
     jsIndexOf s.draggable s.dragging = -1 ∧
     (drop s).draggable = s.draggable.dropLast ∧
     (drop s).dropped = [] ++ [none]) :=
  drop_dragging_missing _ (fun d hd => by cases hd) (by decide)
